import Mathlib

/-!
Verification of the NothingHide exposure-analysis pipeline.

This file gives a shallow embedding of the server-side analysis modules
(input classification, breach lookup, platform correlation, verdict scoring,
guidance generation, transparency reporting) and proves properties about them.

Modelling conventions:
* JavaScript numbers are modelled exactly: integer quantities as `Nat`,
  fractional confidences as `ℚ` (the confidence constants are exact decimals
  and every comparison against them is far from any binary-rounding boundary).
* The exposure-score expression `Math.round((totalScore / maxWeight) * 100)`
  is modelled bit-faithfully to IEEE-754 binary64: the division and the
  multiplication are rounded to 53-bit significands (nearest, ties to even),
  and `Math.round` takes the nearest integer to the exact value of the
  resulting double, half-way cases toward `+∞` (ECMA-262).  This matters: at
  reachable totals `(46, 80)` the doubles give 57 where exact rational
  round-half-up would give 58.
* Breach dates are modelled as integer timestamps; the "two years ago" cutoff
  computed from the current date is passed in as a parameter.
* Network effects (`fetch`) are modelled by passing the outcome of the provider as
  an explicit argument (an inductive of the possible HTTP results / errors).
-/

namespace NothingHide

/-- Case-sensitive substring test (JavaScript `String.prototype.includes`):
does `t` occur contiguously inside `s`? -/
def strContains (s t : String) : Bool :=
  s.data.tails.any (fun suf => t.data.isPrefixOf suf)

theorem strContains_iff (s t : String) :
    strContains s t = true ↔ t.data <:+: s.data := by
  unfold strContains
  rw [List.any_eq_true]
  constructor
  · rintro ⟨suf, hmem, hpre⟩
    rw [List.mem_tails suf s.data] at hmem
    rw [ List.isPrefixOf_iff_prefix] at hpre
    exact List.infix_iff_prefix_suffix.mpr ⟨suf, hpre, hmem⟩
  · intro h
    obtain ⟨u, hpre, hsuf⟩ := List.infix_iff_prefix_suffix.mp h
    exact ⟨u, (List.mem_tails u s.data).mpr hsuf, List.isPrefixOf_iff_prefix.mpr hpre⟩

theorem strContains_intro {s t : String} (h : t.data <:+: s.data) :
    strContains s t = true :=
  (strContains_iff s t).mpr h

/-! ## Data model (from `shared/schema` as used by the server modules) -/

inductive InputType
  | email
  | username
  | image_url
  | unknown
deriving DecidableEq

def InputType.str : InputType → String
  | .email => "email"
  | .username => "username"
  | .image_url => "image_url"
  | .unknown => "unknown"

inductive Severity
  | low
  | medium
  | high
  | critical
deriving DecidableEq

inductive RiskLevel
  | low
  | medium
  | high
deriving DecidableEq

inductive Impact
  | positive
  | negative
  | neutral
deriving DecidableEq

structure InputClassification where
  type : InputType
  value : String
  confidence : ℚ
  isValid : Bool
  validationMessage : Option String
deriving DecidableEq

structure BreachSource where
  name : String
  domain : String
  breachDate : Int
  dataClasses : List String
  pwnCount : Nat
deriving DecidableEq

structure BreachResult where
  found : Bool
  breachCount : Nat
  sources : List BreachSource
  severity : Severity
  apiAvailable : Bool
  limitationNote : Option String
deriving DecidableEq

structure CorrelationMatch where
  platform : String
  url : Option String
  available : Bool
  confidence : ℚ
deriving DecidableEq

structure CorrelationResult where
  «matches» : List CorrelationMatch
  risk : RiskLevel
  checkedPlatforms : List String
  limitationNote : Option String
deriving DecidableEq

structure ExposureIndicator where
  source : String
  matchConfidence : ℚ
  url : Option String
deriving DecidableEq

structure ImageRiskResult where
  analyzed : Bool
  perceptualHash : Option String
  exposureIndicators : List ExposureIndicator
  riskLevel : RiskLevel
  disclaimer : String
  limitationNote : Option String
deriving DecidableEq

structure Factor where
  factor : String
  impact : Impact
  weight : Nat
deriving DecidableEq

structure Verdict where
  exposureScore : Nat
  riskLevel : RiskLevel
  summary : String
  factors : List Factor
deriving DecidableEq

structure VerdictInput where
  input : InputClassification
  breach : Option BreachResult
  correlation : Option CorrelationResult
  imageRisk : Option ImageRiskResult
deriving DecidableEq

/-! ## Verdict scorer (`src/server/modules/verdict.ts`) -/

/-- Severity-to-base-score table of `calculateBreachScore`. -/
def severityScores : Severity → Nat
  | .low => 10
  | .medium => 20
  | .high => 35
  | .critical => 50

/-- `calculateBreachScore`: (score, weight) for a found breach. -/
def calculateBreachScore (breach : BreachResult) : Nat × Nat :=
  (severityScores breach.severity + min (breach.breachCount * 2) 20, 50)

/-- Breach section of `generateVerdict`: factors pushed and (score, weight) added. -/
def breachStep : Option BreachResult → List Factor × Nat × Nat
  | none => ([], 0, 0)
  | some b =>
    if b.found then
      let bs := calculateBreachScore b
      let f1 : Factor :=
        { factor := "Found in " ++ toString b.breachCount ++ " data breach" ++
            (if b.breachCount ≠ 1 then "es" else ""),
          impact := .negative, weight := bs.2 }
      if b.severity = .critical then
        ([f1, { factor := "Contains sensitive data types (passwords, financial info)",
                impact := .negative, weight := 15 }],
         bs.1 + 15, bs.2 + 15)
      else ([f1], bs.1, bs.2)
    else if b.apiAvailable then
      ([{ factor := "No known breaches detected", impact := .positive, weight := 20 }], 0, 20)
    else ([], 0, 0)

/-- Correlation section of `generateVerdict`. -/
def correlationStep : Option CorrelationResult → List Factor × Nat × Nat
  | none => ([], 0, 0)
  | some c =>
    let foundCount := (c.«matches».filter (fun m => !m.available)).length
    if foundCount > 0 then
      let correlationScore := min (foundCount * 5) 25
      ([{ factor := "Username found on " ++ toString foundCount ++ " platform" ++
            (if foundCount ≠ 1 then "s" else ""),
          impact := if foundCount ≥ 3 then .negative else .neutral,
          weight := correlationScore }],
       correlationScore, 25)
    else if c.checkedPlatforms.length > 0 then
      ([{ factor := "Username appears unique across checked platforms",
          impact := .positive, weight := 10 }], 0, 10)
    else ([], 0, 0)

/-- Image-risk section of `generateVerdict`. -/
def imageStep : Option ImageRiskResult → List Factor × Nat × Nat
  | none => ([], 0, 0)
  | some ir =>
    if ir.analyzed then
      if ir.exposureIndicators.length > 0 then
        let imageScore := min (ir.exposureIndicators.length * 10) 30
        ([{ factor := "Image found on " ++ toString ir.exposureIndicators.length ++
              " external site" ++ (if ir.exposureIndicators.length ≠ 1 then "s" else ""),
            impact := .negative, weight := imageScore }],
         imageScore, 30)
      else
        ([{ factor := "No widespread image exposure detected",
            impact := .positive, weight := 10 }], 0, 10)
    else ([], 0, 0)

/-- The factor list accumulated by `generateVerdict`, in push order
breach → correlation → image. -/
def verdictFactors (data : VerdictInput) : List Factor :=
  (breachStep data.breach).1 ++ (correlationStep data.correlation).1 ++
    (imageStep data.imageRisk).1

/-- The `(totalScore, maxWeight)` accumulators of `generateVerdict`. -/
def verdictTotals (data : VerdictInput) : Nat × Nat :=
  ((breachStep data.breach).2.1 + (correlationStep data.correlation).2.1 +
     (imageStep data.imageRisk).2.1,
   (breachStep data.breach).2.2 + (correlationStep data.correlation).2.2 +
     (imageStep data.imageRisk).2.2)

/-- Round-half-up of `100*t/m` in exact rational arithmetic,
`⌊(100*t/m) + 1/2⌋`.  This is the idealised (exact-arithmetic) reading of
"round(100·totalScore/maxWeight)" in the specification — it is NOT what the
program computes: the program evaluates `(t/m)*100` in IEEE-754 binary64 and
the two differ at reachable totals such as `(46, 80)` (57.5 exactly, but
57.49999999999999289… in doubles).  Used only to refute that reading. -/
def exactRound100 (t m : Nat) : Nat := (200 * t + m) / (2 * m)

/-- Round `num/den` to the nearest integer, ties to even
(the IEEE-754 default rounding of a positive real to an integer significand). -/
def roundNearestEven (num den : Nat) : Nat :=
  let q := num / den
  let r := num % den
  if 2 * r < den then q
  else if den < 2 * r then q + 1
  else if q % 2 = 0 then q else q + 1

/-- Bounded search for the least `k` (starting at the given `k`, at most `fuel`
steps) satisfying `p`. -/
def leastK (p : Nat → Bool) : Nat → Nat → Nat
  | 0, k => k
  | Nat.succ fuel, k => if p k then k else leastK p fuel (k + 1)

/-- The IEEE-754 binary64 value of `t / m` (for `0 < t/m < 2^52`, the range
reachable here), as a dyadic pair `(s, k)` denoting `s / 2^k`:
`k` is the least exponent putting `t·2^k/m` into `[2^52, 2^53)` and `s` is that
quotient rounded to nearest, ties to even. -/
def flDiv (t m : Nat) : Nat × Nat :=
  let k := leastK (fun k => 2 ^ 52 * m ≤ t * 2 ^ k) 200 0
  (roundNearestEven (t * 2 ^ k) m, k)

/-- The binary64 product `fl(v * 100)` for a dyadic `v = s / 2^k`: the exact
product has numerator `s·100` over the same `2^k`; that numerator is rounded
back to 53 significant bits (nearest, ties to even) and returned. -/
def flMul100 (s : Nat) : Nat :=
  let p := s * 100
  if p < 2 ^ 53 then p
  else
    let j := leastK (fun j => p < 2 ^ (53 + j)) 200 0
    roundNearestEven p (2 ^ j) * 2 ^ j

/-- `Math.round((t / m) * 100)` exactly as the program computes it: the
division and the multiplication are performed in IEEE-754 binary64
(round-to-nearest, ties-to-even), and `Math.round` then takes the closest
integer to the resulting double's exact value, half-way cases toward `+∞`
(ECMA-262), computed here as `⌊x + 1/2⌋` on the exact dyadic value. -/
def jsRound100 (t m : Nat) : Nat :=
  if t = 0 then 0
  else
    let sk := flDiv t m
    let n := flMul100 sk.1
    (2 * n + 2 ^ sk.2) / (2 * 2 ^ sk.2)

/-- `data.breach?.found` of the source (missing breach result counts as false). -/
def breachFoundB (data : VerdictInput) : Bool :=
  match data.breach with
  | some b => b.found
  | none => false

/-- `exposureScore` before the breach floor:
0 when `maxWeight = 0`, else `min(Math.round((totalScore / max(maxWeight,1)) * 100), 100)`
with the inner computation in binary64 as in the source. -/
def rawExposureScore (data : VerdictInput) : Nat :=
  if (verdictTotals data).2 = 0 then 0
  else min (jsRound100 (verdictTotals data).1 (max (verdictTotals data).2 1)) 100

/-- `exposureScore` after the breach floor: raised to 20 when the breach result
is present with `found = true` and the raw score is below 20. -/
def finalExposureScore (data : VerdictInput) : Nat :=
  if breachFoundB data = true ∧ rawExposureScore data < 20 then 20
  else rawExposureScore data

/-- Risk tier from the final exposure score. -/
def verdictRiskLevel (data : VerdictInput) : RiskLevel :=
  if 60 ≤ finalExposureScore data then .high
  else if 30 ≤ finalExposureScore data then .medium
  else .low

/-- Breach sentence of the high-risk summary branch. -/
def summaryBreachHigh : Option BreachResult → String
  | some b =>
    if b.found then
      "It appears in " ++ toString b.breachCount ++ " known data breach" ++
        (if b.breachCount ≠ 1 then "es" else "") ++
        ", which means credentials or personal information may have been compromised. "
    else ""
  | none => ""

/-- Breach sentence of the medium-risk summary branch. -/
def summaryBreachMedium : Option BreachResult → String
  | some b =>
    if b.found then
      "It was found in " ++ toString b.breachCount ++ " data breach" ++
        (if b.breachCount ≠ 1 then "es" else "") ++ ". "
    else ""
  | none => ""

/-- Correlation sentence of the medium-risk summary branch. -/
def summaryCorrelationMedium : Option CorrelationResult → String
  | some c =>
    if (c.«matches».filter (fun m => !m.available)).length ≠ 0 then
      "The associated username appears on multiple platforms, which could enable account correlation. "
    else ""
  | none => ""

/-- Breach sentence of the low-risk summary branch. -/
def summaryBreachLow : Option BreachResult → String
  | some b =>
    if !b.found && b.apiAvailable then "No known breaches were detected. " else ""
  | none => ""

/-- `generateSummary` of `verdict.ts` (the dead local `inputValue` is omitted;
the inline sentence conditionals are the named `summary…` parts above). -/
def generateSummary (data : VerdictInput) (score : Nat) (riskLevel : RiskLevel)
    (factors : List Factor) : String :=
  let inputType := data.input.type.str
  if score = 0 ∧ factors = [] then
    "We couldn\x27t gather enough information about " ++
      (if data.input.type = .email then "this email"
       else if data.input.type = .username then "this username" else "this image") ++
      " to calculate an exposure score. This may be due to API limitations or the input being genuinely unexposed."
  else if riskLevel = .high then
    "This " ++ inputType ++ " shows significant public exposure. " ++
      summaryBreachHigh data.breach ++
      "We recommend taking immediate action to secure associated accounts."
  else if riskLevel = .medium then
    "This " ++ inputType ++ " has moderate public exposure. " ++
      summaryBreachMedium data.breach ++ summaryCorrelationMedium data.correlation ++
      "Consider reviewing your security settings and enabling additional protections."
  else
    "This " ++ inputType ++ " shows minimal public exposure based on our analysis. " ++
      summaryBreachLow data.breach ++
      "Continue practicing good security hygiene to maintain this status."

/-- `generateVerdict` of `verdict.ts`. -/
def generateVerdict (data : VerdictInput) : Verdict :=
  { exposureScore := finalExposureScore data,
    riskLevel := verdictRiskLevel data,
    summary := generateSummary data (finalExposureScore data) (verdictRiskLevel data)
      (verdictFactors data),
    factors := verdictFactors data }

/-! ## Claim-side scoring formula (worded as in the specification) -/

/-- Severity base scores as listed in the claim: low=10, medium=20, high=35, critical=50. -/
def claimSeverityBase : Severity → Nat
  | .low => 10
  | .medium => 20
  | .high => 35
  | .critical => 50

/-- Breach branch of the claimed accumulation: found ⇒ base + min(breachCount*2,20) with
weight 50, plus an extra +15/+15 when severity is critical; not found but apiAvailable ⇒
weight 20 only. -/
def claimBreachContrib : Option BreachResult → Nat × Nat
  | none => (0, 0)
  | some b =>
    if b.found then
      if b.severity = .critical then
        (claimSeverityBase b.severity + min (b.breachCount * 2) 20 + 15, 50 + 15)
      else
        (claimSeverityBase b.severity + min (b.breachCount * 2) 20, 50)
    else if b.apiAvailable then (0, 20)
    else (0, 0)

/-- Correlation branch of the claimed accumulation: ≥1 unavailable match ⇒
score min(foundCount*5,25) with weight 25; checked with zero matches ⇒ weight 10. -/
def claimCorrelationContrib : Option CorrelationResult → Nat × Nat
  | none => (0, 0)
  | some c =>
    let foundCount := (c.«matches».filter (fun m => !m.available)).length
    if 1 ≤ foundCount then (min (foundCount * 5) 25, 25)
    else if c.checkedPlatforms ≠ [] then (0, 10)
    else (0, 0)

/-- Image branch of the claimed accumulation: analyzed with ≥1 indicator ⇒
score min(count*10,30) with weight 30; analyzed with zero indicators ⇒ weight 10. -/
def claimImageContrib : Option ImageRiskResult → Nat × Nat
  | none => (0, 0)
  | some ir =>
    if ir.analyzed then
      if 1 ≤ ir.exposureIndicators.length then
        (min (ir.exposureIndicators.length * 10) 30, 30)
      else (0, 10)
    else (0, 0)

/-- The claimed totals: sum of the three branch contributions. -/
def claimTotals (data : VerdictInput) : Nat × Nat :=
  ((claimBreachContrib data.breach).1 + (claimCorrelationContrib data.correlation).1 +
     (claimImageContrib data.imageRisk).1,
   (claimBreachContrib data.breach).2 + (claimCorrelationContrib data.correlation).2 +
     (claimImageContrib data.imageRisk).2)

/-- The final exposure score exactly as claim C1 words it, read in exact
arithmetic: `round(100*totalScore/max(maxWeight,1))` clamped to `[0,100]`, and
0 when `maxWeight = 0`.  (Note: no breach floor, and exact round-half-up rather
than the binary64 evaluation the program performs.) -/
def claimExposureScore (data : VerdictInput) : Nat :=
  if (claimTotals data).2 = 0 then 0
  else min (exactRound100 (claimTotals data).1 (max (claimTotals data).2 1)) 100

/-- The claimed final score with `round(·)` read as the program's actual
binary64 evaluation of `Math.round((totalScore/max(maxWeight,1))*100)`
(still without the breach floor it also omits). -/
def claimJsExposureScore (data : VerdictInput) : Nat :=
  if (claimTotals data).2 = 0 then 0
  else min (jsRound100 (claimTotals data).1 (max (claimTotals data).2 1)) 100

theorem breachContrib_eq (b? : Option BreachResult) :
    (breachStep b?).2 = claimBreachContrib b? := by
  cases b? with
  | none => rfl
  | some b =>
    unfold breachStep claimBreachContrib calculateBreachScore
    cases hf : b.found <;> cases hs : b.severity <;> cases ha : b.apiAvailable <;>
      simp [hf, hs, ha, severityScores, claimSeverityBase, Nat.add_assoc]

theorem correlationContrib_eq (c? : Option CorrelationResult) :
    (correlationStep c?).2 = claimCorrelationContrib c? := by
  cases c? with
  | none => rfl
  | some c =>
    unfold correlationStep claimCorrelationContrib
    cases hm : (c.«matches».filter (fun m => !m.available)).length with
    | zero =>
      cases hp : c.checkedPlatforms <;> simp [hm, hp]
    | succ k => simp [hm]

theorem imageContrib_eq (i? : Option ImageRiskResult) :
    (imageStep i?).2 = claimImageContrib i? := by
  cases i? with
  | none => rfl
  | some ir =>
    unfold imageStep claimImageContrib
    cases ha : ir.analyzed <;> cases hn : ir.exposureIndicators.length <;> simp [ha, hn]

theorem verdictTotals_eq (data : VerdictInput) : verdictTotals data = claimTotals data := by
  unfold verdictTotals claimTotals
  rw [breachContrib_eq, correlationContrib_eq, imageContrib_eq]

theorem riskLevel_iffs (e : Nat) :
    ((if 60 ≤ e then RiskLevel.high else if 30 ≤ e then RiskLevel.medium
        else RiskLevel.low) = RiskLevel.high ↔ 60 ≤ e) ∧
    ((if 60 ≤ e then RiskLevel.high else if 30 ≤ e then RiskLevel.medium
        else RiskLevel.low) = RiskLevel.medium ↔ 30 ≤ e ∧ e < 60) ∧
    ((if 60 ≤ e then RiskLevel.high else if 30 ≤ e then RiskLevel.medium
        else RiskLevel.low) = RiskLevel.low ↔ e < 30) := by
  by_cases h1 : 60 ≤ e <;> by_cases h2 : 30 ≤ e <;> simp [h1, h2] <;> omega

/-! ## Concrete inputs used as counterexamples / witnesses -/

/-- A classified email input (as produced for `a@b.com`). -/
def inputEmailAB : InputClassification :=
  { type := .email, value := "a@b.com", confidence := (95 : ℚ)/100,
    isValid := true, validationMessage := none }

/-- A found breach of low severity with a single entry. -/
def breachLowOne : BreachResult :=
  { found := true, breachCount := 1,
    sources := [{ name := "ExampleBreach", domain := "example.com", breachDate := 0,
                  dataClasses := ["Email addresses"], pwnCount := 1000 }],
    severity := .low, apiAvailable := true, limitationNote := none }

/-- A correlation result where platforms were checked but no match was found. -/
def corrCheckedNone : CorrelationResult :=
  { «matches» := [], risk := .low, checkedPlatforms := ["GitHub"], limitationNote := none }

/-- An analyzed image result with zero exposure indicators. -/
def imageCleanResult : ImageRiskResult :=
  { analyzed := true, perceptualHash := some ("0123abcd"), exposureIndicators := [],
    riskLevel := .low,
    disclaimer := "This does not confirm misuse. It estimates public exposure risk based on image accessibility analysis.",
    limitationNote := none }

/-- Input on which the breach floor fires: totals (12, 70), raw score 17, final 20. -/
def verdictInputFloorCase : VerdictInput :=
  { input := inputEmailAB, breach := some breachLowOne,
    correlation := some corrCheckedNone, imageRisk := some imageCleanResult }

/-- A found breach of medium severity with three entries (score 26, weight 50). -/
def breachMediumThree : BreachResult :=
  { found := true, breachCount := 3, sources := [], severity := .medium,
    apiAvailable := true, limitationNote := none }

/-- An analyzed image with two exposure indicators (score 20, weight 30). -/
def imageTwoIndicators : ImageRiskResult :=
  { analyzed := true, perceptualHash := some ("0123abcd"),
    exposureIndicators :=
      [{ source := "site-a.example", matchConfidence := (6 : ℚ)/10,
         url := some ("https://site-a.example/img") },
       { source := "site-b.example", matchConfidence := (6 : ℚ)/10,
         url := some ("https://site-b.example/img") }],
    riskLevel := .medium,
    disclaimer := "This does not confirm misuse. It estimates public exposure risk based on image accessibility analysis.",
    limitationNote := none }

/-- Input with totals (46, 80): `46/80 = 0.575` is not a binary64 value, the
doubles evaluate `Math.round((46/80)*100)` to 57, while exact round-half-up of
57.5 is 58. -/
def verdictInputFloatCase : VerdictInput :=
  { input := inputEmailAB, breach := some breachMediumThree,
    correlation := none, imageRisk := some imageTwoIndicators }

/-! ## Claims C1 and C2 -/

/-- C1 counterexample, in two parts.
(i) Breach floor: on `verdictInputFloorCase` the code returns exposure score 20
(the floor of `verdict.ts:101-103` fires) while the claimed formula
round(100*12/70) yields 17 under either reading of round.
(ii) Rounding: on `verdictInputFloatCase` the totals are (46, 80); the code
evaluates `(46/80)*100` in binary64 to 57.49999999999999289… and returns 57,
while the claim's round(57.5) in exact arithmetic is 58.  So the claim's
final-score equation is false as stated on both counts. -/
theorem c1_counterexample :
    ((generateVerdict verdictInputFloorCase).exposureScore = 20 ∧
      claimExposureScore verdictInputFloorCase = 17 ∧
      (generateVerdict verdictInputFloorCase).exposureScore ≠
        claimExposureScore verdictInputFloorCase) ∧
    ((generateVerdict verdictInputFloatCase).exposureScore = 57 ∧
      claimTotals verdictInputFloatCase = (46, 80) ∧
      claimExposureScore verdictInputFloatCase = 58 ∧
      (generateVerdict verdictInputFloatCase).exposureScore ≠
        claimExposureScore verdictInputFloatCase) := by
  refine ⟨⟨rfl, rfl, by decide⟩, ⟨rfl, rfl, rfl, by decide⟩⟩

/-- C1 (amended): `generateVerdict` accumulates score/weight exactly per the
listed branches, and the final exposure score equals
`Math.round((totalScore/max(maxWeight,1))*100)` — with the division and
multiplication evaluated in IEEE-754 binary64, as the program does, which at
totals (46, 80) gives 57 rather than exact round-half-up 58 — clamped to
[0,100] (0 when maxWeight = 0), **except** that it is raised to 20 whenever the
breach result is present with `found = true` and that value is below 20; the
risk tier is high iff score ≥ 60, medium iff 30 ≤ score < 60, else low. -/
theorem c1_verdict_scoring (data : VerdictInput) :
    verdictTotals data = claimTotals data ∧
    (generateVerdict data).exposureScore =
      (if breachFoundB data = true ∧ claimJsExposureScore data < 20 then 20
       else claimJsExposureScore data) ∧
    ((generateVerdict data).riskLevel = RiskLevel.high ↔
      60 ≤ (generateVerdict data).exposureScore) ∧
    ((generateVerdict data).riskLevel = RiskLevel.medium ↔
      30 ≤ (generateVerdict data).exposureScore ∧
        (generateVerdict data).exposureScore < 60) ∧
    ((generateVerdict data).riskLevel = RiskLevel.low ↔
      (generateVerdict data).exposureScore < 30) := by
  have ht := verdictTotals_eq data
  have hraw : rawExposureScore data = claimJsExposureScore data := by
    unfold rawExposureScore claimJsExposureScore
    rw [ht]
  refine ⟨ht, ?_, ?_⟩
  · show finalExposureScore data = _
    unfold finalExposureScore
    rw [hraw]
  · have h := riskLevel_iffs (finalExposureScore data)
    exact h

/-- C2: whenever the breach result is present with `found = true`, the final
exposure score is at least 20, whatever the other inputs are. -/
theorem c2_breach_floor (data : VerdictInput) (b : BreachResult)
    (hb : data.breach = some b) (hf : b.found = true) :
    20 ≤ (generateVerdict data).exposureScore := by
  have hbf : breachFoundB data = true := by simp [breachFoundB, hb, hf]
  show 20 ≤ finalExposureScore data
  by_cases hr : rawExposureScore data < 20
  · simp [finalExposureScore, hbf, hr]
  · simp only [finalExposureScore]
    split
    · omega
    · omega

/-- C2 witness: a concrete input with a found breach scores at least 20. -/
theorem c2_breach_floor_witness :
    20 ≤ (generateVerdict verdictInputFloorCase).exposureScore :=
  c2_breach_floor verdictInputFloorCase breachLowOne rfl rfl

/-! ## Breach lookup (`src/server/modules/breach.ts`)

Dates are modelled as integer timestamps; the `twoYearsAgo` value the code
derives from the current date is passed in as a parameter.  The HIBP provider behaviour (`fetch`) is modelled by an explicit outcome argument. -/

structure HIBPBreach where
  Name : String
  Title : String
  Domain : String
  BreachDate : Int
  PwnCount : Nat
  Description : String
  DataClasses : List String
deriving DecidableEq

def sensitiveDataTypes : List String :=
  ["Passwords", "Credit cards", "Social security numbers", "Bank account numbers"]

/-- The flag-accumulating loop of `calculateSeverity`:
`(hasSensitiveData, hasRecentBreach)` after the `for` loop. -/
def severityFlags (twoYearsAgo : Int) (breaches : List HIBPBreach) : Bool × Bool :=
  breaches.foldl
    (fun acc breach =>
      (acc.1 || breach.DataClasses.any (fun dc => sensitiveDataTypes.contains dc),
       acc.2 || decide (twoYearsAgo < breach.BreachDate)))
    (false, false)

/-- `calculateSeverity` of `breach.ts`. -/
def calculateSeverity (twoYearsAgo : Int) (breaches : List HIBPBreach) : Severity :=
  if breaches.length = 0 then .low
  else
    let hasSensitiveData := (severityFlags twoYearsAgo breaches).1
    let hasRecentBreach := (severityFlags twoYearsAgo breaches).2
    if decide (10 ≤ breaches.length) || (hasSensitiveData && hasRecentBreach) then .critical
    else if decide (5 ≤ breaches.length) || hasSensitiveData then .high
    else if decide (2 ≤ breaches.length) || hasRecentBreach then .medium
    else .low

/-- A match carrying a sensitive data category, as the claim words it. -/
def specSensitive (b : HIBPBreach) : Bool :=
  b.DataClasses.any (fun dc => sensitiveDataTypes.contains dc)

/-- A match whose breach date is within the last two years (after the cutoff). -/
def specRecent (twoYearsAgo : Int) (b : HIBPBreach) : Bool :=
  decide (twoYearsAgo < b.BreachDate)

/-- The severity policy exactly as claim C3 words it: ordinal fallthrough
critical → high → medium → low, and low for an empty list. -/
def specSeverity (twoYearsAgo : Int) (breaches : List HIBPBreach) : Severity :=
  if breaches = [] then .low
  else if 10 ≤ breaches.length ∨
      (breaches.any specSensitive = true ∧ breaches.any (specRecent twoYearsAgo) = true) then
    .critical
  else if 5 ≤ breaches.length ∨ breaches.any specSensitive = true then .high
  else if 2 ≤ breaches.length ∨ breaches.any (specRecent twoYearsAgo) = true then .medium
  else .low

theorem severityFlags_aux (twoYearsAgo : Int) (breaches : List HIBPBreach) (s r : Bool) :
    breaches.foldl
      (fun acc breach =>
        (acc.1 || breach.DataClasses.any (fun dc => sensitiveDataTypes.contains dc),
         acc.2 || decide (twoYearsAgo < breach.BreachDate)))
      (s, r) =
      (s || breaches.any specSensitive, r || breaches.any (specRecent twoYearsAgo)) := by
  induction breaches generalizing s r with
  | nil => simp
  | cons b bs ih =>
    rw [List.foldl_cons, ih]
    simp [specSensitive, specRecent, Bool.or_assoc]

theorem severityFlags_eq (twoYearsAgo : Int) (breaches : List HIBPBreach) :
    severityFlags twoYearsAgo breaches =
      (breaches.any specSensitive, breaches.any (specRecent twoYearsAgo)) := by
  unfold severityFlags
  rw [severityFlags_aux]
  simp

/-- C3: `calculateSeverity` implements exactly the claimed ordinal fallthrough
(critical if count ≥ 10 or sensitive-and-recent; else high if count ≥ 5 or
sensitive; else medium if count ≥ 2 or recent; else low; low for empty). -/
theorem c3_severity_policy (twoYearsAgo : Int) (breaches : List HIBPBreach) :
    calculateSeverity twoYearsAgo breaches = specSeverity twoYearsAgo breaches := by
  unfold calculateSeverity specSeverity
  rw [severityFlags_eq]
  cases breaches with
  | nil => simp
  | cons b bs =>
    simp only [List.length_cons, List.cons_ne_nil, if_false,
      Bool.or_eq_true, Bool.and_eq_true, decide_eq_true_eq]
    split_ifs <;> first | rfl | tauto

/-! ## `checkBreaches` -/

inductive FetchOutcome
  | ok (breaches : List HIBPBreach)
  | status404
  | status401
  | status429
  | otherStatus (code : Nat)
  | networkError
deriving DecidableEq

def noKeyNote : String :=
  "Breach detection requires a HaveIBeenPwned API key. Without it, we cannot check if this email appears in known data breaches. Visit haveibeenpwned.com/API/Key to obtain an API key."

def invalidKeyNote : String :=
  "The provided API key is invalid. Please check your HaveIBeenPwned API key configuration."

def rateLimitNote : String := "Rate limit exceeded. Please try again in a few moments."

def lookupErrorNote : String :=
  "An error occurred while checking breach databases. The service may be temporarily unavailable."

/-- `checkBreaches` of `breach.ts`.  `apiKeyPresent` models whether
`process.env.HIBP_API_KEY` is set; `outcome` models the HIBP fetch result.
A non-OK status other than 404/401/429 is thrown and caught by the `catch`
block, which also receives network errors — both yield the same error result. -/
def checkBreaches (email : String) (apiKeyPresent : Bool) (twoYearsAgo : Int)
    (outcome : FetchOutcome) : BreachResult :=
  if !apiKeyPresent then
    { found := false, breachCount := 0, sources := [], severity := .low,
      apiAvailable := false, limitationNote := some noKeyNote }
  else
    match outcome with
    | .status404 =>
      { found := false, breachCount := 0, sources := [], severity := .low,
        apiAvailable := true, limitationNote := none }
    | .status401 =>
      { found := false, breachCount := 0, sources := [], severity := .low,
        apiAvailable := false, limitationNote := some invalidKeyNote }
    | .status429 =>
      { found := false, breachCount := 0, sources := [], severity := .low,
        apiAvailable := false, limitationNote := some rateLimitNote }
    | .otherStatus _ =>
      { found := false, breachCount := 0, sources := [], severity := .low,
        apiAvailable := false, limitationNote := some lookupErrorNote }
    | .networkError =>
      { found := false, breachCount := 0, sources := [], severity := .low,
        apiAvailable := false, limitationNote := some lookupErrorNote }
    | .ok breaches =>
      { found := true, breachCount := breaches.length,
        sources := breaches.map (fun breach =>
          { name := if breach.Title = "" then breach.Name else breach.Title,
            domain := breach.Domain, breachDate := breach.BreachDate,
            dataClasses := breach.DataClasses, pwnCount := breach.PwnCount }),
        severity := calculateSeverity twoYearsAgo breaches,
        apiAvailable := true, limitationNote := none }

/-- C7: `checkBreaches` is total and structurally valid on every provider
outcome: each failure path (missing key, 401, 429, other status, network error)
returns `apiAvailable = false` with a limitation note present; a successful
lookup with zero matches (HTTP 404) returns `found = false` with
`apiAvailable = true`; and `found = false` always comes with zero count and
empty sources. -/
theorem c7_checkBreaches_total (email : String) (twoYearsAgo : Int) :
    (∀ oc : FetchOutcome,
      (checkBreaches email false twoYearsAgo oc).apiAvailable = false ∧
      (checkBreaches email false twoYearsAgo oc).limitationNote.isSome = true) ∧
    ((checkBreaches email true twoYearsAgo FetchOutcome.status404).found = false ∧
      (checkBreaches email true twoYearsAgo FetchOutcome.status404).apiAvailable = true) ∧
    ((checkBreaches email true twoYearsAgo FetchOutcome.status401).apiAvailable = false ∧
      (checkBreaches email true twoYearsAgo FetchOutcome.status401).limitationNote.isSome = true) ∧
    ((checkBreaches email true twoYearsAgo FetchOutcome.status429).apiAvailable = false ∧
      (checkBreaches email true twoYearsAgo FetchOutcome.status429).limitationNote.isSome = true) ∧
    (∀ code : Nat,
      (checkBreaches email true twoYearsAgo (FetchOutcome.otherStatus code)).apiAvailable = false ∧
      (checkBreaches email true twoYearsAgo
        (FetchOutcome.otherStatus code)).limitationNote.isSome = true) ∧
    ((checkBreaches email true twoYearsAgo FetchOutcome.networkError).apiAvailable = false ∧
      (checkBreaches email true twoYearsAgo FetchOutcome.networkError).limitationNote.isSome = true) ∧
    (∀ oc : FetchOutcome,
      (checkBreaches email true twoYearsAgo oc).found = true ∨
      ((checkBreaches email true twoYearsAgo oc).breachCount = 0 ∧
        (checkBreaches email true twoYearsAgo oc).sources = [])) := by
  refine ⟨fun oc => ?_, ⟨rfl, rfl⟩, ⟨rfl, rfl⟩, ⟨rfl, rfl⟩, fun code => ⟨rfl, rfl⟩,
    ⟨rfl, rfl⟩, fun oc => ?_⟩
  · cases oc <;> exact ⟨rfl, rfl⟩
  · cases oc <;> simp [checkBreaches]

/-! ## Platform correlator (`src/unnamed/part_000`)

The network probe is modelled as a function from the probed URL to an outcome
(an HTTP status, or a network/timeout failure). -/

structure PlatformCheck where
  platform : String
  url : String
  checkMethod : String
deriving DecidableEq

def PLATFORMS : List PlatformCheck :=
  [{ platform := "GitHub", url := "https://github.com/{username}", checkMethod := "existence" },
   { platform := "Twitter/X", url := "https://twitter.com/{username}", checkMethod := "existence" },
   { platform := "Instagram", url := "https://instagram.com/{username}", checkMethod := "existence" },
   { platform := "Reddit", url := "https://reddit.com/user/{username}", checkMethod := "existence" },
   { platform := "LinkedIn", url := "https://linkedin.com/in/{username}", checkMethod := "existence" },
   { platform := "Medium", url := "https://medium.com/@{username}", checkMethod := "existence" },
   { platform := "YouTube", url := "https://youtube.com/@{username}", checkMethod := "existence" },
   { platform := "TikTok", url := "https://tiktok.com/@{username}", checkMethod := "existence" },
   { platform := "Pinterest", url := "https://pinterest.com/{username}", checkMethod := "existence" },
   { platform := "Twitch", url := "https://twitch.tv/{username}", checkMethod := "existence" }]

/-- Upper-case hex digit for a value below 16. -/
def hexDigit (n : Nat) : Char :=
  if n < 10 then Char.ofNat (48 + n) else Char.ofNat (55 + n)

/-- UTF-8 byte sequence of a character (as natural numbers below 256). -/
def utf8Bytes (c : Char) : List Nat :=
  let n := c.toNat
  if n < 0x80 then [n]
  else if n < 0x800 then [0xC0 + n / 0x40, 0x80 + n % 0x40]
  else if n < 0x10000 then
    [0xE0 + n / 0x1000, 0x80 + (n / 0x40) % 0x40, 0x80 + n % 0x40]
  else
    [0xF0 + n / 0x40000, 0x80 + (n / 0x1000) % 0x40, 0x80 + (n / 0x40) % 0x40,
     0x80 + n % 0x40]

/-- Characters `encodeURIComponent` leaves unescaped. -/
def uriUnreserved (c : Char) : Bool :=
  c.isAlpha || c.isDigit || c == '-' || c == '_' || c == '.' || c == '!' ||
    c == '~' || c == '*' || c == Char.ofNat 39 || c == '(' || c == ')'

def percentEncodeChar (c : Char) : List Char :=
  (utf8Bytes c).foldr (fun b acc => '%' :: hexDigit (b / 16) :: hexDigit (b % 16) :: acc) []

/-- JavaScript `encodeURIComponent`. -/
def encodeURIComponent (s : String) : String :=
  ⟨s.data.foldr (fun c acc => if uriUnreserved c then c :: acc else percentEncodeChar c ++ acc) []⟩

def replaceFirstAux (pat rep : List Char) : List Char → List Char
  | [] => []
  | c :: rest =>
    if pat.isPrefixOf (c :: rest) then rep ++ (c :: rest).drop pat.length
    else c :: replaceFirstAux pat rep rest

/-- JavaScript `String.prototype.replace` with a string pattern:
replaces the first occurrence only. -/
def replaceFirst (s pat rep : String) : String :=
  ⟨replaceFirstAux pat.data rep.data s.data⟩

inductive ProbeOutcome
  | status (code : Nat)
  | failure
deriving DecidableEq

/-- Internal result record of `checkPlatformExists`. -/
structure PlatformProbe where
  platform : String
  url : String
  available : Bool
  confidence : ℚ
deriving DecidableEq

/-- The URL probed for a platform/username pair. -/
def probeUrl (platform : PlatformCheck) (username : String) : String :=
  replaceFirst platform.url ("{username}") (encodeURIComponent username)

/-- `checkPlatformExists` of the correlator: 200 ⇒ taken (available = false,
confidence 0.8); 404 ⇒ available (0.7); other status ⇒ available (0.3);
failed request ⇒ available (0.2). -/
def checkPlatformExists (probe : String → ProbeOutcome) (platform : PlatformCheck)
    (username : String) : PlatformProbe :=
  let url := probeUrl platform username
  match probe url with
  | .status code =>
    if code = 200 then
      { platform := platform.platform, url := url, available := false,
        confidence := (8 : ℚ)/10 }
    else if code = 404 then
      { platform := platform.platform, url := url, available := true,
        confidence := (7 : ℚ)/10 }
    else
      { platform := platform.platform, url := url, available := true,
        confidence := (3 : ℚ)/10 }
  | .failure =>
    { platform := platform.platform, url := url, available := true,
      confidence := (2 : ℚ)/10 }

def platformLimitationNote : String :=
  "Platform checks use basic HTTP requests. Some platforms may block automated access, leading to false negatives. Results should be verified manually for critical decisions."

/-- `correlateUsername` of the correlator: probes the first 6 platforms. -/
def correlateUsername (probe : String → ProbeOutcome) (username : String) :
    CorrelationResult :=
  let platformsToCheck := PLATFORMS.take 6
  let results := platformsToCheck.map (fun platform =>
    checkPlatformExists probe platform username)
  let foundPlatforms := results.filter (fun r =>
    !r.available && decide ((5 : ℚ)/10 ≤ r.confidence))
  let risk : RiskLevel :=
    if 4 ≤ foundPlatforms.length then .high
    else if 2 ≤ foundPlatforms.length then .medium
    else .low
  { «matches» := results.map (fun r =>
      { platform := r.platform, url := if r.available then none else some r.url,
        available := r.available, confidence := r.confidence }),
    risk := risk,
    checkedPlatforms := platformsToCheck.map (fun p => p.platform),
    limitationNote := some platformLimitationNote }

theorem checkPlatformExists_platform (probe : String → ProbeOutcome)
    (platform : PlatformCheck) (username : String) :
    (checkPlatformExists probe platform username).platform = platform.platform := by
  cases h : probe (probeUrl platform username) with
  | status code =>
    simp only [checkPlatformExists, h]
    split_ifs <;> rfl
  | failure => simp only [checkPlatformExists, h]

theorem length_filter_map {α β : Type} (g : α → β) (p : β → Bool) (l : List α) :
    ((l.map g).filter p).length = (l.filter (fun x => p (g x))).length := by
  induction l with
  | nil => rfl
  | cons x xs ih =>
    simp only [List.map_cons, List.filter_cons]
    cases p (g x) <;> simp [ih]

theorem correlationRisk_iffs (n : Nat) :
    ((if 4 ≤ n then RiskLevel.high else if 2 ≤ n then RiskLevel.medium
        else RiskLevel.low) = RiskLevel.high ↔ 4 ≤ n) ∧
    ((if 4 ≤ n then RiskLevel.high else if 2 ≤ n then RiskLevel.medium
        else RiskLevel.low) = RiskLevel.medium ↔ n = 2 ∨ n = 3) ∧
    ((if 4 ≤ n then RiskLevel.high else if 2 ≤ n then RiskLevel.medium
        else RiskLevel.low) = RiskLevel.low ↔ n ≤ 1) := by
  by_cases h1 : 4 ≤ n <;> by_cases h2 : 2 ≤ n <;> simp [h1, h2] <;> omega

/-- C4: probe outcome interpretation — 200 ⇒ (false, 0.8); 404 ⇒ (true, 0.7);
any other status ⇒ (true, 0.3); network/timeout error ⇒ (true, 0.2) — and the
aggregate risk counts exactly the matches with `available = false` and
confidence ≥ 0.5: high iff ≥ 4, medium iff 2 or 3, else low. -/
theorem c4_probe_interpretation (probe : String → ProbeOutcome)
    (platform : PlatformCheck) (username : String) :
    (probe (probeUrl platform username) = ProbeOutcome.status 200 →
      (checkPlatformExists probe platform username).available = false ∧
      (checkPlatformExists probe platform username).confidence = (8 : ℚ)/10) ∧
    (probe (probeUrl platform username) = ProbeOutcome.status 404 →
      (checkPlatformExists probe platform username).available = true ∧
      (checkPlatformExists probe platform username).confidence = (7 : ℚ)/10) ∧
    (∀ code : Nat, code ≠ 200 → code ≠ 404 →
      probe (probeUrl platform username) = ProbeOutcome.status code →
      (checkPlatformExists probe platform username).available = true ∧
      (checkPlatformExists probe platform username).confidence = (3 : ℚ)/10) ∧
    (probe (probeUrl platform username) = ProbeOutcome.failure →
      (checkPlatformExists probe platform username).available = true ∧
      (checkPlatformExists probe platform username).confidence = (2 : ℚ)/10) ∧
    ((correlateUsername probe username).risk = RiskLevel.high ↔
      4 ≤ ((correlateUsername probe username).«matches».filter (fun m =>
        !m.available && decide ((5 : ℚ)/10 ≤ m.confidence))).length) ∧
    ((correlateUsername probe username).risk = RiskLevel.medium ↔
      ((correlateUsername probe username).«matches».filter (fun m =>
        !m.available && decide ((5 : ℚ)/10 ≤ m.confidence))).length = 2 ∨
      ((correlateUsername probe username).«matches».filter (fun m =>
        !m.available && decide ((5 : ℚ)/10 ≤ m.confidence))).length = 3) ∧
    ((correlateUsername probe username).risk = RiskLevel.low ↔
      ((correlateUsername probe username).«matches».filter (fun m =>
        !m.available && decide ((5 : ℚ)/10 ≤ m.confidence))).length ≤ 1) := by
  have hcnt : ((correlateUsername probe username).«matches».filter (fun m =>
      !m.available && decide ((5 : ℚ)/10 ≤ m.confidence))).length =
      (((PLATFORMS.take 6).map (fun p =>
        checkPlatformExists probe p username)).filter (fun r =>
          !r.available && decide ((5 : ℚ)/10 ≤ r.confidence))).length := by
    simp only [correlateUsername]
    rw [length_filter_map]
  have hrisk := correlationRisk_iffs
    ((((PLATFORMS.take 6).map (fun p =>
      checkPlatformExists probe p username)).filter (fun r =>
        !r.available && decide ((5 : ℚ)/10 ≤ r.confidence))).length)
  refine ⟨?_, ?_, ?_, ?_, ?_, ?_, ?_⟩
  · intro h
    simp [checkPlatformExists, h]
  · intro h
    simp [checkPlatformExists, h]
  · intro code h1 h2 h
    simp [checkPlatformExists, h, h1, h2]
  · intro h
    simp [checkPlatformExists, h]
  · rw [hcnt]
    exact hrisk.1
  · rw [hcnt]
    exact hrisk.2.1
  · rw [hcnt]
    exact hrisk.2.2

/-- C4 witness: concrete probes hitting each branch. -/
theorem c4_probe_interpretation_witness :
    ((checkPlatformExists (fun _ => ProbeOutcome.status 200)
        { platform := "GitHub", url := "https://github.com/{username}",
          checkMethod := "existence" } ("alice")).available = false ∧
      (checkPlatformExists (fun _ => ProbeOutcome.status 200)
        { platform := "GitHub", url := "https://github.com/{username}",
          checkMethod := "existence" } ("alice")).confidence = (8 : ℚ)/10) ∧
    ((checkPlatformExists (fun _ => ProbeOutcome.status 500)
        { platform := "GitHub", url := "https://github.com/{username}",
          checkMethod := "existence" } ("alice")).available = true ∧
      (checkPlatformExists (fun _ => ProbeOutcome.status 500)
        { platform := "GitHub", url := "https://github.com/{username}",
          checkMethod := "existence" } ("alice")).confidence = (3 : ℚ)/10) := by
  constructor
  · exact (c4_probe_interpretation (fun _ => ProbeOutcome.status 200)
      { platform := "GitHub", url := "https://github.com/{username}",
        checkMethod := "existence" } ("alice")).1 rfl
  · exact (c4_probe_interpretation (fun _ => ProbeOutcome.status 500)
      { platform := "GitHub", url := "https://github.com/{username}",
        checkMethod := "existence" } ("alice")).2.2.1 500 (by decide) (by decide) rfl

/-- C9: `correlateUsername` probes exactly the first six declared platforms;
`matches` and `checkedPlatforms` have six entries, the platform of the i-th match is
the i-th checked platform, and the `url` of a match is present exactly when
`available = false`. -/
theorem c9_fixed_panel (probe : String → ProbeOutcome) (username : String) :
    (correlateUsername probe username).«matches».length = 6 ∧
    (correlateUsername probe username).checkedPlatforms =
      ["GitHub", "Twitter/X", "Instagram", "Reddit", "LinkedIn", "Medium"] ∧
    (correlateUsername probe username).«matches».map (fun m => m.platform) =
      (correlateUsername probe username).checkedPlatforms ∧
    (correlateUsername probe username).«matches».all
      (fun m => m.url.isSome == !m.available) = true := by
  refine ⟨?_, rfl, ?_, ?_⟩
  · simp [correlateUsername, PLATFORMS]
  · simp only [correlateUsername, List.map_map, Function.comp]
    simp [PLATFORMS, checkPlatformExists_platform]
  · simp only [correlateUsername]
    rw [List.all_eq_true]
    intro m hm
    rw [List.mem_map] at hm
    obtain ⟨r, _, rfl⟩ := hm
    cases hr : r.available <;> simp [hr]

/-! ## Input classifier (`src/server/modules/guidance.ts`, `classifyInput`)

The four regexes are embedded as executable decision procedures with the same
matching semantics (`test` = "some full/partial match exists" per anchor). -/

/-- JavaScript `String.prototype.trim`: strip leading and trailing whitespace.
(Equivalent to `String.trim`, but defined by structural recursion on the
character list so that it evaluates inside the kernel.) -/
def jsTrim (s : String) : String :=
  ⟨((s.data.dropWhile Char.isWhitespace).reverse.dropWhile Char.isWhitespace).reverse⟩

/-- JavaScript `String.prototype.toLowerCase` (structural-recursion version of
`String.toLower`). -/
def jsToLower (s : String) : String :=
  ⟨s.data.map Char.toLower⟩

/-- JavaScript regex `.`: any character except a line terminator. -/
def dotOk (c : Char) : Bool :=
  c != Char.ofNat 10 && c != Char.ofNat 13 && c != Char.ofNat 0x2028 &&
    c != Char.ofNat 0x2029

/-- Character class `[^\s@]`. -/
def emailCharOk (c : Char) : Bool := !c.isWhitespace && c != '@'

/-- `EMAIL_REGEX = /^[^\s@]+@[^\s@]+\.[^\s@]+$/`: the string decomposes as
`localPart ++ "@" ++ domain` with `localPart` nonempty and free of whitespace
and `@`, `domain` free of whitespace and `@`, and `domain` containing a `.`
that is neither its first nor its last character. -/
def emailTest (s : String) : Bool :=
  let cs := s.data
  let localPart := cs.takeWhile (fun c => c != '@')
  match cs.dropWhile (fun c => c != '@') with
  | [] => false
  | _ :: domain =>
    localPart != [] && localPart.all emailCharOk && domain.all emailCharOk &&
      ((domain.drop 1).dropLast.contains '.')

def imageExts : List String := ["jpg", "jpeg", "png", "gif", "webp", "svg", "bmp"]

/-- `(\?.*)?$`: nothing follows, or a query string follows. -/
def queryTailOk : List Char → Bool
  | [] => true
  | c :: rest => c == '?' && rest.all dotOk

/-- Does some image extension, followed by an admissible tail, start at `l`? -/
def extMatch (l : List Char) : Bool :=
  imageExts.any (fun e => e.data.isPrefixOf l && queryTailOk (l.drop e.data.length))

/-- Body after the scheme for `.+\.(jpg|…)(\?.*)?$`: some dot at position
`i ≥ 1` is preceded only by `.`-matchable characters and followed by an
extension and an admissible tail. -/
def imageBodyTest (body : List Char) : Bool :=
  (List.range body.length).any (fun i =>
    decide (1 ≤ i) && (body.drop i).head? == some '.' &&
      (body.take i).all dotOk && extMatch (body.drop (i + 1)))

/-- Scheme prefix `https?:\/\/` on an already lower-cased character list;
returns the remaining characters on a match. -/
def schemeSplit (l : List Char) : Option (List Char) :=
  if "https://".data.isPrefixOf l then some (l.drop 8)
  else if "http://".data.isPrefixOf l then some (l.drop 7)
  else none

/-- `IMAGE_URL_REGEX = /^https?:\/\/.+\.(jpg|jpeg|png|gif|webp|svg|bmp)(\?.*)?$/i`. -/
def imageUrlTest (s : String) : Bool :=
  match schemeSplit (jsToLower s).data with
  | some body => imageBodyTest body
  | none => false

/-- `URL_REGEX = /^https?:\/\/.+/i` (unanchored on the right: one
`.`-matchable character after the scheme suffices). -/
def urlTest (s : String) : Bool :=
  match schemeSplit (jsToLower s).data with
  | some [] => false
  | some (c :: _) => dotOk c
  | none => false

/-- Character class `[a-zA-Z0-9_.-]`. -/
def usernameCharOk (c : Char) : Bool :=
  c.isAlpha || c.isDigit || c == '_' || c == '.' || c == '-'

/-- `USERNAME_REGEX = /^[a-zA-Z0-9_.-]{3,30}$/`. -/
def usernameTest (s : String) : Bool :=
  s.data.all usernameCharOk && decide (3 ≤ s.data.length) &&
    decide (s.data.length ≤ 30)

/-- Fallback pattern `/^[a-zA-Z0-9_.-]+$/`. -/
def usernameFallbackTest (s : String) : Bool :=
  s.data != [] && s.data.all usernameCharOk

/-- The `looksLikeImage` heuristic of the generic-URL branch. -/
def looksLikeImage (trimmed : String) : Bool :=
  strContains trimmed ("image") || strContains trimmed ("photo") ||
    strContains trimmed ("avatar") || strContains trimmed ("img")

/-- `classifyInput` of `guidance.ts`. -/
def classifyInput (input : String) : InputClassification :=
  let trimmed := jsTrim input
  if trimmed = "" then
    { type := .unknown, value := trimmed, confidence := 0, isValid := false,
      validationMessage := some ("Input is required") }
  else if emailTest trimmed then
    { type := .email, value := jsToLower trimmed, confidence := (95 : ℚ)/100,
      isValid := true, validationMessage := none }
  else if imageUrlTest trimmed then
    { type := .image_url, value := trimmed, confidence := (9 : ℚ)/10,
      isValid := true, validationMessage := none }
  else if urlTest trimmed then
    { type := .image_url, value := trimmed,
      confidence := if looksLikeImage trimmed then (7 : ℚ)/10 else (5 : ℚ)/10,
      isValid := true,
      validationMessage :=
        if looksLikeImage trimmed then none
        else some ("URL detected, treating as potential image URL") }
  else if usernameTest trimmed then
    { type := .username, value := trimmed, confidence := (85 : ℚ)/100,
      isValid := true, validationMessage := none }
  else if usernameFallbackTest trimmed then
    { type := .username, value := trimmed, confidence := (6 : ℚ)/10,
      isValid := true, validationMessage := some ("Treating as username") }
  else
    { type := .unknown, value := trimmed, confidence := 0, isValid := false,
      validationMessage :=
        some ("Unable to classify input. Please enter a valid email, username, or image URL.") }

/-- C6: `classifyInput` evaluates its rules in the fixed precedence order
(email, then image URL, then generic URL, then username, then fallback), and
the four listed inputs classify as claimed. -/
theorem c6_classify_precedence :
    classifyInput ("a@b.com") =
      { type := .email, value := "a@b.com", confidence := (95 : ℚ)/100,
        isValid := true, validationMessage := none } ∧
    classifyInput ("https://x.com/photo.jpg") =
      { type := .image_url, value := "https://x.com/photo.jpg",
        confidence := (9 : ℚ)/10, isValid := true, validationMessage := none } ∧
    classifyInput ("j_doe99") =
      { type := .username, value := "j_doe99", confidence := (85 : ℚ)/100,
        isValid := true, validationMessage := none } ∧
    classifyInput ("") =
      { type := .unknown, value := "", confidence := 0, isValid := false,
        validationMessage := some ("Input is required") } ∧
    (∀ s : String, jsTrim s ≠ "" → emailTest (jsTrim s) = true →
      classifyInput s =
        { type := .email, value := jsToLower (jsTrim s), confidence := (95 : ℚ)/100,
          isValid := true, validationMessage := none }) ∧
    (∀ s : String, jsTrim s ≠ "" → emailTest (jsTrim s) = false →
      imageUrlTest (jsTrim s) = true →
      classifyInput s =
        { type := .image_url, value := jsTrim s, confidence := (9 : ℚ)/10,
          isValid := true, validationMessage := none }) ∧
    (∀ s : String, jsTrim s ≠ "" → emailTest (jsTrim s) = false →
      imageUrlTest (jsTrim s) = false → urlTest (jsTrim s) = true →
      classifyInput s =
        { type := .image_url, value := jsTrim s,
          confidence := if looksLikeImage (jsTrim s) then (7 : ℚ)/10 else (5 : ℚ)/10,
          isValid := true,
          validationMessage :=
            if looksLikeImage (jsTrim s) then none
            else some ("URL detected, treating as potential image URL") }) ∧
    (∀ s : String, jsTrim s ≠ "" → emailTest (jsTrim s) = false →
      imageUrlTest (jsTrim s) = false → urlTest (jsTrim s) = false →
      usernameTest (jsTrim s) = true →
      classifyInput s =
        { type := .username, value := jsTrim s, confidence := (85 : ℚ)/100,
          isValid := true, validationMessage := none }) ∧
    (∀ s : String, jsTrim s ≠ "" → emailTest (jsTrim s) = false →
      imageUrlTest (jsTrim s) = false → urlTest (jsTrim s) = false →
      usernameTest (jsTrim s) = false → usernameFallbackTest (jsTrim s) = true →
      classifyInput s =
        { type := .username, value := jsTrim s, confidence := (6 : ℚ)/10,
          isValid := true, validationMessage := some ("Treating as username") }) := by
  refine ⟨?_, ?_, ?_, ?_, ?_, ?_, ?_, ?_, ?_⟩
  · simp only [classifyInput]
    rw [if_neg (by decide), if_pos (by decide),
      (by decide : jsToLower (jsTrim ("a@b.com")) = "a@b.com")]
  · simp only [classifyInput]
    rw [if_neg (by decide), if_neg (by decide), if_pos (by decide),
      (by decide : jsTrim ("https://x.com/photo.jpg") = "https://x.com/photo.jpg")]
  · simp only [classifyInput]
    rw [if_neg (by decide), if_neg (by decide), if_neg (by decide),
      if_neg (by decide), if_pos (by decide),
      (by decide : jsTrim ("j_doe99") = "j_doe99")]
  · simp only [classifyInput]
    rw [if_pos (by decide), (by decide : jsTrim ("") = "")]
  · intro s h0 h1
    simp [classifyInput, h0, h1]
  · intro s h0 h1 h2
    simp [classifyInput, h0, h1, h2]
  · intro s h0 h1 h2 h3
    simp [classifyInput, h0, h1, h2, h3]
  · intro s h0 h1 h2 h3 h4
    simp [classifyInput, h0, h1, h2, h3, h4]
  · intro s h0 h1 h2 h3 h4 h5
    simp [classifyInput, h0, h1, h2, h3, h4, h5]

/-- C6 witness: the email-precedence rule applied at a concrete mixed-case input. -/
theorem c6_classify_precedence_witness :
    classifyInput ("Mixed@Example.ORG") =
      { type := InputType.email, value := jsToLower (jsTrim ("Mixed@Example.ORG")),
        confidence := (95 : ℚ)/100, isValid := true, validationMessage := none } :=
  c6_classify_precedence.2.2.2.2.1 ("Mixed@Example.ORG") (by decide) (by decide)

/-! ## Guidance generator (`src/server/modules/guidance.ts`, `generateGuidance`) -/

inductive RecommendationCategory
  | account_security
  | privacy
  | platform_action
  | monitoring
deriving DecidableEq

inductive Urgency
  | immediate
  | soon
  | when_possible
deriving DecidableEq

structure Recommendation where
  priority : Nat
  category : RecommendationCategory
  title : String
  description : String
  urgency : Urgency
deriving DecidableEq

structure Guidance where
  recommendations : List Recommendation
deriving DecidableEq

structure GuidanceInput where
  input : InputClassification
  breach : Option BreachResult
  correlation : Option CorrelationResult
  imageRisk : Option ImageRiskResult
deriving DecidableEq

/-- `recommendations.push({priority: priority++, …})`: the state is the list
built so far together with the next priority counter. -/
def pushRec (st : List Recommendation × Nat) (category : RecommendationCategory)
    (title description : String) (urgency : Urgency) : List Recommendation × Nat :=
  (st.1 ++ [{ priority := st.2, category := category, title := title,
              description := description, urgency := urgency }],
   st.2 + 1)

/-- Does the title of a recommendation carry the password-manager theme
(case-insensitive substring check)? -/
def pmTitled (r : Recommendation) : Bool :=
  strContains (jsToLower r.title) ("password manager")

/-- Breach-related recommendations of `generateGuidance`. -/
def guidanceBreachStep (st : List Recommendation × Nat) :
    Option BreachResult → List Recommendation × Nat
  | none => st
  | some b =>
    if b.found then
      let st1 :=
        if b.severity = .critical ∨ b.severity = .high then
          pushRec
            (pushRec st .account_security ("Change passwords immediately")
              ("Your credentials may have been exposed in a data breach. Change passwords for all accounts using this email, especially financial and primary email accounts. Use unique, strong passwords for each.")
              .immediate)
            .account_security ("Enable two-factor authentication")
            ("Add an extra layer of security by enabling 2FA on all important accounts. Use an authenticator app rather than SMS when possible.")
            .immediate
        else
          pushRec st .account_security ("Review and update passwords")
            ("Your email was found in data breaches. While the severity is lower, you should still update passwords for accounts using this email.")
            .soon
      pushRec st1 .monitoring ("Monitor for suspicious activity")
        ("Watch for unusual login attempts, password reset emails, or unfamiliar transactions. Set up login notifications where available.")
        .soon
    else st

/-- Correlation-related recommendations of `generateGuidance`. -/
def guidanceCorrelationStep (st : List Recommendation × Nat) :
    Option CorrelationResult → List Recommendation × Nat
  | none => st
  | some c =>
    let foundCount := (c.«matches».filter (fun m => !m.available)).length
    let st1 :=
      if 3 ≤ foundCount then
        pushRec st .privacy ("Vary usernames across platforms")
          ("Using the same username across many platforms makes it easier to track your online presence. Consider using different usernames for different types of accounts.")
          .when_possible
      else st
    if 0 < foundCount then
      pushRec st1 .privacy ("Review privacy settings on found platforms")
        ("Your username was found on " ++ toString foundCount ++ " platform" ++
          (if foundCount ≠ 1 then "s" else "") ++
          ". Review the privacy settings on these accounts to control what information is publicly visible.")
        .soon
    else st1

/-- Image-related recommendation of `generateGuidance`. -/
def guidanceImageStep (st : List Recommendation × Nat) :
    Option ImageRiskResult → List Recommendation × Nat
  | none => st
  | some ir =>
    if ir.analyzed && decide (0 < ir.exposureIndicators.length) then
      pushRec st .platform_action ("Review image sharing settings")
        ("Your image appears on multiple sites. If any use is unauthorized, you may be able to request removal through the platform\x27s reporting tools.")
        .soon
    else st

/-- Generic fallback recommendations when nothing specific was found. -/
def guidanceFallbackStep (st : List Recommendation × Nat) : List Recommendation × Nat :=
  if st.1.length = 0 then
    pushRec
      (pushRec st .monitoring ("Stay vigilant")
        ("While no major exposures were found, continue practicing good security hygiene. Use unique passwords, enable 2FA, and be cautious of phishing attempts.")
        .when_possible)
      .privacy ("Periodic security check-ups")
      ("Run periodic exposure checks to stay informed about your digital footprint. New breaches are discovered regularly.")
      .when_possible
  else st

/-- The always-recommend-password-manager step, guarded by the de-duplication
check. -/
def guidancePasswordManagerStep (st : List Recommendation × Nat) :
    List Recommendation × Nat :=
  if !(st.1.any (fun r => pmTitled r)) then
    pushRec st .account_security ("Use a password manager")
      ("A password manager helps you create and store unique, strong passwords for every account, making it easier to maintain good security practices.")
      .when_possible
  else st

/-- `generateGuidance` of `guidance.ts`. -/
def generateGuidance (data : GuidanceInput) : Guidance :=
  { recommendations :=
      (guidancePasswordManagerStep (guidanceFallbackStep (guidanceImageStep
        (guidanceCorrelationStep (guidanceBreachStep ([], 1) data.breach)
          data.correlation) data.imageRisk))).1 }

/-- Invariant of the builder state: the counter is one past the length, the
priorities so far are `1, …, n` in order, and no pushed title carries the
password-manager theme. -/
def GoodState (st : List Recommendation × Nat) : Prop :=
  st.2 = st.1.length + 1 ∧
  st.1.map (fun r => r.priority) = List.range' 1 st.1.length ∧
  st.1.all (fun r => !pmTitled r) = true

theorem pushRec_good (st : List Recommendation × Nat) (h : GoodState st)
    (category : RecommendationCategory) (t d : String) (u : Urgency)
    (ht : strContains (jsToLower t) ("password manager") = false) :
    GoodState (pushRec st category t d u) := by
  obtain ⟨h1, h2, h3⟩ := h
  refine ⟨?_, ?_, ?_⟩
  · simp [pushRec, h1]
  · simp only [pushRec, List.map_append, List.length_append, List.map_cons,
      List.map_nil, List.length_cons, List.length_nil]
    rw [h2, h1, List.range'_1_concat]
    simp [Nat.add_comm]
  · have h3' : ∀ x ∈ st.1, strContains (jsToLower x.title) ("password manager") = false := by
      intro x hx
      have hx' := List.all_eq_true.mp h3 x hx
      simpa [pmTitled] using hx'
    simp [pushRec, List.all_append, pmTitled, ht]
    exact h3'

theorem guidanceBreachStep_good (st : List Recommendation × Nat) (h : GoodState st)
    (b? : Option BreachResult) : GoodState (guidanceBreachStep st b?) := by
  cases b? with
  | none => exact h
  | some b =>
    simp only [guidanceBreachStep]
    split_ifs with hf hs
    · exact pushRec_good _ (pushRec_good _ (pushRec_good _ h _ _ _ _ (by decide))
        _ _ _ _ (by decide)) _ _ _ _ (by decide)
    · exact pushRec_good _ (pushRec_good _ h _ _ _ _ (by decide)) _ _ _ _ (by decide)
    · exact h

theorem guidanceCorrelationStep_good (st : List Recommendation × Nat)
    (h : GoodState st) (c? : Option CorrelationResult) :
    GoodState (guidanceCorrelationStep st c?) := by
  cases c? with
  | none => exact h
  | some c =>
    simp only [guidanceCorrelationStep]
    split_ifs with h1 h2 h3 <;>
      first
        | exact h
        | exact pushRec_good _ h _ _ _ _ (by decide)
        | exact pushRec_good _ (pushRec_good _ h _ _ _ _ (by decide)) _ _ _ _ (by decide)

theorem guidanceImageStep_good (st : List Recommendation × Nat) (h : GoodState st)
    (i? : Option ImageRiskResult) : GoodState (guidanceImageStep st i?) := by
  cases i? with
  | none => exact h
  | some ir =>
    simp only [guidanceImageStep]
    split_ifs with h1
    · exact pushRec_good _ h _ _ _ _ (by decide)
    · exact h

theorem guidanceFallbackStep_good (st : List Recommendation × Nat)
    (h : GoodState st) : GoodState (guidanceFallbackStep st) := by
  simp only [guidanceFallbackStep]
  split_ifs with h1
  · exact pushRec_good _ (pushRec_good _ h _ _ _ _ (by decide)) _ _ _ _ (by decide)
  · exact h

/-- C8: `generateGuidance` always returns a non-empty list whose priorities are
exactly `1, 2, …, n` in emission order and which carries exactly one
recommendation whose title contains "password manager" (case-insensitively). -/
theorem c8_guidance_priorities_and_dedup (data : GuidanceInput) :
    (generateGuidance data).recommendations ≠ [] ∧
    (generateGuidance data).recommendations.map (fun r => r.priority) =
      List.range' 1 (generateGuidance data).recommendations.length ∧
    ((generateGuidance data).recommendations.filter (fun r => pmTitled r)).length
      = 1 := by
  have hg : GoodState (guidanceFallbackStep (guidanceImageStep
      (guidanceCorrelationStep (guidanceBreachStep ([], 1) data.breach)
        data.correlation) data.imageRisk)) :=
    guidanceFallbackStep_good _ (guidanceImageStep_good _
      (guidanceCorrelationStep_good _
        (guidanceBreachStep_good _ (show GoodState ([], 1) from ⟨rfl, rfl, rfl⟩)
          data.breach)
        data.correlation) data.imageRisk)
  obtain ⟨h1, h2, h3⟩ := hg
  have hany : ((guidanceFallbackStep (guidanceImageStep
      (guidanceCorrelationStep (guidanceBreachStep ([], 1) data.breach)
        data.correlation) data.imageRisk)).1.any (fun r => pmTitled r)) = false := by
    rw [List.any_eq_false]
    intro r hr
    have hr' := List.all_eq_true.mp h3 r hr
    simpa using hr'
  have hpm : ∀ r, r ∈ (guidanceFallbackStep (guidanceImageStep
      (guidanceCorrelationStep (guidanceBreachStep ([], 1) data.breach)
        data.correlation) data.imageRisk)).1 → ¬(pmTitled r = true) := by
    intro r hr
    have hr' := List.all_eq_true.mp h3 r hr
    simpa using hr'
  simp only [generateGuidance, guidancePasswordManagerStep, hany,
    Bool.not_false, if_true]
  refine ⟨?_, ?_, ?_⟩
  · simp [pushRec]
  · simp only [pushRec, List.map_append, List.length_append, List.map_cons,
      List.map_nil, List.length_cons, List.length_nil]
    rw [h2, h1, List.range'_1_concat]
    simp [Nat.add_comm]
  · have hpmt : strContains (jsToLower ("Use a password manager"))
        ("password manager") = true := by decide
    simp only [pushRec, List.filter_append]
    rw [List.filter_eq_nil_iff.mpr hpm]
    simp [pmTitled, hpmt]

/-! ## Transparency reporter (`src/server/modules/transparency.ts`)

The current timestamp (`new Date().toISOString()`) is passed in as `now`. -/

structure DataSource where
  name : String
  type : String
  description : String
deriving DecidableEq

structure Transparency where
  whatWasChecked : List String
  whatWasNotChecked : List String
  dataSources : List DataSource
  legalScope : String
  timestamp : String
deriving DecidableEq

structure TransparencyInput where
  input : InputClassification
  breach : Option BreachResult
  correlation : Option CorrelationResult
  imageRisk : Option ImageRiskResult
deriving DecidableEq

/-- The five fixed categorical exclusions always appended to
`whatWasNotChecked`. -/
def fixedExclusions : List String :=
  ["Dark web or hidden services",
   "Private or password-protected databases",
   "Encrypted or access-restricted systems",
   "Social media private messages or posts",
   "Non-public company databases"]

/-- `generateTransparency` of `transparency.ts`. -/
def generateTransparency (data : TransparencyInput) (now : String) : Transparency :=
  let breachPart : List String × List String × List DataSource :=
    match data.breach with
    | some b =>
      if b.apiAvailable then
        (["Known data breach databases via HaveIBeenPwned API"], [],
         [{ name := "HaveIBeenPwned", type := "api",
            description := "Aggregated database of publicly disclosed data breaches" }])
      else ([], ["Data breach databases (API key not configured or unavailable)"], [])
    | none => ([], [], [])
  let corrPart : List String × List DataSource :=
    match data.correlation with
    | some c =>
      if 0 < c.checkedPlatforms.length then
        (["Username availability on " ++ toString c.checkedPlatforms.length ++
            " platforms"],
         [{ name := "Platform Availability Checks", type := "public_check",
            description := "HTTP requests to check if usernames exist on major platforms" }])
      else ([], [])
    | none => ([], [])
  let imagePart : List String × List String :=
    match data.imageRisk with
    | some ir =>
      if ir.analyzed then
        (["Image URL accessibility and content type verification"] ++
           (if ir.perceptualHash.isSome then ["Perceptual hash generation (URL-based)"]
            else []),
         [])
      else ([], ["Image content analysis (unable to access image)"])
    | none => ([], [])
  { whatWasChecked :=
      ["Input type classification (" ++ data.input.type.str ++ ")"] ++
        breachPart.1 ++ corrPart.1 ++ imagePart.1,
    whatWasNotChecked := breachPart.2.1 ++ imagePart.2 ++ fixedExclusions,
    dataSources :=
      breachPart.2.2 ++ corrPart.2 ++
        [{ name := "Risk Scoring Algorithm", type := "heuristic",
           description := "Proprietary algorithm combining breach severity, platform presence, and exposure indicators" }],
    legalScope :=
      "NothingHide analyzes only publicly accessible information. No private systems, restricted databases, or confidential data sources were accessed. This analysis provides exposure awareness, not forensic proof. Results should be verified independently for critical security decisions.",
    timestamp := now }

/-- C10: whatever modules ran, `whatWasNotChecked` contains all five fixed
categorical exclusions. -/
theorem c10_transparency_exclusions (data : TransparencyInput) (now : String) :
    "Dark web or hidden services" ∈
      (generateTransparency data now).whatWasNotChecked ∧
    "Private or password-protected databases" ∈
      (generateTransparency data now).whatWasNotChecked ∧
    "Encrypted or access-restricted systems" ∈
      (generateTransparency data now).whatWasNotChecked ∧
    "Social media private messages or posts" ∈
      (generateTransparency data now).whatWasNotChecked ∧
    "Non-public company databases" ∈
      (generateTransparency data now).whatWasNotChecked := by
  refine ⟨?_, ?_, ?_, ?_, ?_⟩ <;>
    · show _ ∈ _ ++ _ ++ fixedExclusions
      simp [fixedExclusions]

/-! ## Claim C5: summary content -/

theorem infix_appendL {α : Type} {t l₂ : List α} (l₁ : List α) (h : t <:+: l₂) :
    t <:+: l₁ ++ l₂ := by
  obtain ⟨u, v, rfl⟩ := h
  exact ⟨l₁ ++ u, v, by simp⟩

theorem infix_appendR {α : Type} {t l₁ : List α} (l₂ : List α) (h : t <:+: l₁) :
    t <:+: l₁ ++ l₂ := by
  obtain ⟨u, v, rfl⟩ := h
  exact ⟨u, v ++ l₂, by simp⟩

theorem strContains_appendL (s₁ s₂ t : String) (h : strContains s₂ t = true) :
    strContains (s₁ ++ s₂) t = true := by
  rw [strContains_iff] at h ⊢
  rw [String.data_append]
  exact infix_appendL _ h

theorem strContains_appendR (s₁ s₂ t : String) (h : strContains s₁ t = true) :
    strContains (s₁ ++ s₂) t = true := by
  rw [strContains_iff] at h ⊢
  rw [String.data_append]
  exact infix_appendR _ h

theorem strContains_refl (t : String) : strContains t t = true :=
  strContains_intro ( List.infix_refl _)

theorem summaryBreachHigh_found (b : BreachResult) (hf : b.found = true) :
    summaryBreachHigh (some b) =
      "It appears in " ++ toString b.breachCount ++ " known data breach" ++
        (if b.breachCount ≠ 1 then "es" else "") ++
        ", which means credentials or personal information may have been compromised. " := by
  simp [summaryBreachHigh, hf]

theorem summaryBreachMedium_found (b : BreachResult) (hf : b.found = true) :
    summaryBreachMedium (some b) =
      "It was found in " ++ toString b.breachCount ++ " data breach" ++
        (if b.breachCount ≠ 1 then "es" else "") ++ ". " := by
  simp [summaryBreachMedium, hf]

theorem summaryCorrelationMedium_found (c : CorrelationResult)
    (hc : (c.«matches».filter (fun m => !m.available)).length ≠ 0) :
    summaryCorrelationMedium (some c) =
      "The associated username appears on multiple platforms, which could enable account correlation. " := by
  simp [summaryCorrelationMedium, hc]

/-- A correlation result with four found (unavailable) matches. -/
def corrFourFound : CorrelationResult :=
  { «matches» :=
      [{ platform := "GitHub", url := some ("https://github.com/j_doe99"),
         available := false, confidence := (8 : ℚ)/10 },
       { platform := "Twitter/X", url := some ("https://twitter.com/j_doe99"),
         available := false, confidence := (8 : ℚ)/10 },
       { platform := "Instagram", url := some ("https://instagram.com/j_doe99"),
         available := false, confidence := (8 : ℚ)/10 },
       { platform := "Reddit", url := some ("https://reddit.com/user/j_doe99"),
         available := false, confidence := (8 : ℚ)/10 },
       { platform := "LinkedIn", url := none, available := true,
         confidence := (7 : ℚ)/10 },
       { platform := "Medium", url := none, available := true,
         confidence := (7 : ℚ)/10 }],
    risk := .high,
    checkedPlatforms := ["GitHub", "Twitter/X", "Instagram", "Reddit", "LinkedIn",
      "Medium"],
    limitationNote := some platformLimitationNote }

/-- A username input whose verdict is high-tier purely from correlation. -/
def highCorrInput : VerdictInput :=
  { input := { type := .username, value := "j_doe99", confidence := (85 : ℚ)/100,
               isValid := true, validationMessage := none },
    breach := none, correlation := some corrFourFound, imageRisk := none }

/-- A found breach of low severity with six entries (medium-tier verdict). -/
def breachLowSix : BreachResult :=
  { found := true, breachCount := 6, sources := [], severity := .low,
    apiAvailable := true, limitationNote := none }

/-- An email input whose verdict is medium-tier from the breach alone. -/
def mediumBreachInput : VerdictInput :=
  { input := inputEmailAB, breach := some breachLowSix, correlation := none,
    imageRisk := none }

/-- An input on which nothing could be evaluated (score 0, no factors). -/
def insufficientInput : VerdictInput :=
  { input := inputEmailAB, breach := none, correlation := none, imageRisk := none }

/-- C5 counterexample: (i) on `verdictInputFloorCase` the breach result is
present and found, but the verdict is low-tier and its summary mentions neither
"data breach" nor the breach count "1"; (ii) on a high-tier verdict driven by
four correlation matches, the summary does not mention multi-platform
correlation even though the claim requires it for medium *or high* tiers. -/
theorem c5_counterexample :
    (verdictInputFloorCase.breach = some breachLowOne ∧
      breachLowOne.found = true ∧
      (generateVerdict verdictInputFloorCase).riskLevel = RiskLevel.low ∧
      strContains (generateVerdict verdictInputFloorCase).summary ("data breach")
        = false ∧
      strContains (generateVerdict verdictInputFloorCase).summary
        (toString breachLowOne.breachCount) = false) ∧
    (highCorrInput.correlation = some corrFourFound ∧
      (corrFourFound.«matches».filter (fun m => !m.available)).length = 4 ∧
      (generateVerdict highCorrInput).riskLevel = RiskLevel.high ∧
      strContains (generateVerdict highCorrInput).summary ("multiple platforms")
        = false) := by
  refine ⟨⟨rfl, rfl, rfl, by decide, by decide⟩, ⟨rfl, by decide, rfl, by decide⟩⟩

/-- C5 (amended): the summary mentions the breach count whenever the breach
result is found **and the risk tier is medium or high** (a low-tier summary
omits it); it mentions multi-platform correlation whenever ≥ 1 correlation
match was found **and the tier is medium** (the high-tier template has no
correlation sentence); and with zero factors and score 0 it states that not
enough information was available. -/
theorem c5_summary_mentions (data : VerdictInput) :
    (∀ b : BreachResult, data.breach = some b → b.found = true →
      (generateVerdict data).riskLevel ≠ RiskLevel.low →
      strContains (generateVerdict data).summary (toString b.breachCount) = true ∧
      strContains (generateVerdict data).summary ("data breach") = true) ∧
    (∀ c : CorrelationResult, data.correlation = some c →
      (c.«matches».filter (fun m => !m.available)).length ≠ 0 →
      (generateVerdict data).riskLevel = RiskLevel.medium →
      strContains (generateVerdict data).summary ("multiple platforms") = true) ∧
    ((generateVerdict data).factors = [] → (generateVerdict data).exposureScore = 0 →
      strContains (generateVerdict data).summary ("enough information") = true) := by
  refine ⟨?_, ?_, ?_⟩
  · intro b hb hf hrl
    have h30 : 30 ≤ finalExposureScore data := by
      by_contra hlt
      push_neg at hlt
      exact hrl (show verdictRiskLevel data = RiskLevel.low by
        unfold verdictRiskLevel
        rw [if_neg (by omega), if_neg (by omega)])
    have hguard : ¬(finalExposureScore data = 0 ∧ verdictFactors data = []) := by
      rintro ⟨hg, -⟩
      omega
    rcases hcase : verdictRiskLevel data with _ | _ | _
    · exact absurd hcase hrl
    · constructor
      · show strContains (generateSummary data (finalExposureScore data)
            (verdictRiskLevel data) (verdictFactors data)) _ = true
        rw [hcase]
        unfold generateSummary
        rw [if_neg hguard, if_neg (by decide : ¬(RiskLevel.medium = RiskLevel.high)),
          if_pos rfl, hb, summaryBreachMedium_found b hf]
        apply strContains_appendR
        apply strContains_appendR
        apply strContains_appendL
        apply strContains_appendR
        apply strContains_appendR
        apply strContains_appendR
        exact strContains_appendL _ _ _ (strContains_refl _)
      · show strContains (generateSummary data (finalExposureScore data)
            (verdictRiskLevel data) (verdictFactors data)) _ = true
        rw [hcase]
        unfold generateSummary
        rw [if_neg hguard, if_neg (by decide : ¬(RiskLevel.medium = RiskLevel.high)),
          if_pos rfl, hb, summaryBreachMedium_found b hf]
        apply strContains_appendR
        apply strContains_appendR
        apply strContains_appendL
        apply strContains_appendR
        apply strContains_appendR
        exact strContains_appendL _ _ _ (by decide)
    · constructor
      · show strContains (generateSummary data (finalExposureScore data)
            (verdictRiskLevel data) (verdictFactors data)) _ = true
        rw [hcase]
        unfold generateSummary
        rw [if_neg hguard, if_pos rfl, hb, summaryBreachHigh_found b hf]
        apply strContains_appendR
        apply strContains_appendL
        apply strContains_appendR
        apply strContains_appendR
        apply strContains_appendR
        exact strContains_appendL _ _ _ (strContains_refl _)
      · show strContains (generateSummary data (finalExposureScore data)
            (verdictRiskLevel data) (verdictFactors data)) _ = true
        rw [hcase]
        unfold generateSummary
        rw [if_neg hguard, if_pos rfl, hb, summaryBreachHigh_found b hf]
        apply strContains_appendR
        apply strContains_appendL
        apply strContains_appendR
        apply strContains_appendR
        exact strContains_appendL _ _ _ (by decide)
  · intro c hc hcnt hmed
    have hmed' : verdictRiskLevel data = RiskLevel.medium := hmed
    have h30 : 30 ≤ finalExposureScore data := by
      by_contra hlt
      push_neg at hlt
      have : verdictRiskLevel data = RiskLevel.low := by
        unfold verdictRiskLevel
        rw [if_neg (by omega), if_neg (by omega)]
      rw [hmed'] at this
      exact absurd this (by decide)
    have hguard : ¬(finalExposureScore data = 0 ∧ verdictFactors data = []) := by
      rintro ⟨hg, -⟩
      omega
    show strContains (generateSummary data (finalExposureScore data)
        (verdictRiskLevel data) (verdictFactors data)) _ = true
    rw [hmed']
    unfold generateSummary
    rw [if_neg hguard, if_neg (by decide : ¬(RiskLevel.medium = RiskLevel.high)),
      if_pos rfl, hc, summaryCorrelationMedium_found c hcnt]
    apply strContains_appendR
    apply strContains_appendL
    decide
  · intro hfac hsc
    have hfac' : verdictFactors data = [] := hfac
    have hsc' : finalExposureScore data = 0 := hsc
    show strContains (generateSummary data (finalExposureScore data)
        (verdictRiskLevel data) (verdictFactors data)) _ = true
    unfold generateSummary
    rw [if_pos ⟨hsc', hfac'⟩]
    apply strContains_appendR
    apply strContains_appendR
    decide

/-- C5 witness: concrete applications of the amended summary property. -/
theorem c5_summary_mentions_witness :
    strContains (generateVerdict mediumBreachInput).summary ("data breach") = true ∧
    strContains (generateVerdict insufficientInput).summary ("enough information")
      = true := by
  constructor
  · exact ((c5_summary_mentions mediumBreachInput).1 breachLowSix rfl rfl
      (by decide)).2
  · exact (c5_summary_mentions insufficientInput).2.2 rfl rfl

end NothingHide
